import Mathlib

/-!
# Verification of the breakwater-grpc overload-control core

Shallow embedding of the credit-accounting controller and the client-side
admitter of the breakwater-grpc repository.  Go `int64` values are modelled
as `Int`, Go `float64` arithmetic as `ℚ`, timestamps as `Int` microsecond
ticks, and `uuid.UUID` identities as `Nat`.  A `float64` division by zero
followed by an `int64` conversion has no defined integer result in Go
(the conversion of a non-finite value is implementation-specific), so the
functions that can reach it return `Option`.
-/

namespace BreakwaterGrpc

/-- `min` from `utils.go`: `if a < b { return a }; return b`. -/
def min (a b : Int) : Int := if a < b then a else b

/-- `max` from `utils.go`: `if a > b { return a }; return b`. -/
def max (a b : Int) : Int := if a > b then a else b

/-- Go `math.Max` on `float64`, modelled on `ℚ`. -/
def mathMax (a b : ℚ) : ℚ := if a < b then b else a

/-- Go `math.Round` composed with `int64` conversion (`roundedInt` in
`utils.go`): round half away from zero. -/
def roundedInt (x : ℚ) : Int :=
  if 0 ≤ x then ⌊x + 1/2⌋ else -⌊-x + 1/2⌋

/-- `MAX_Q_LENGTH` from `breakwater.go`. -/
def MAX_Q_LENGTH : Nat := 50

/-- `DELAY_THRESHOLD_PERCENT` from `breakwater.go` (0.4). -/
def DELAY_THRESHOLD_PERCENT : ℚ := 2/5

/-- One registered client at the server (`Connection` in `breakwater.go`;
the write-lock channels are concurrency plumbing and carry no data). -/
structure Connection where
  issued : Int
  demand : Int
  id : Nat
  lastUpdated : Int
deriving DecidableEq, Repr

/-- Association-list model of the `sync.Map` of clients: `Load`. -/
def lookupConn : List (Nat × Connection) → Nat → Option Connection
  | [], _ => none
  | (k, c) :: rest, i => if k = i then some c else lookupConn rest i

/-- Association-list model of the `sync.Map` of clients: `Store`. -/
def storeConn : List (Nat × Connection) → Nat → Connection → List (Nat × Connection)
  | [], i, c => [(i, c)]
  | (k, c0) :: rest, i, c =>
    if k = i then (i, c) :: rest else (k, c0) :: storeConn rest i c

/-- Server-side controller state (`Breakwater` in `breakwater.go`);
only the fields read or written by the credit logic are modelled. -/
structure Breakwater where
  clientMap : List (Nat × Connection)
  lastUpdateTime : Int
  numClients : Int
  cTotal : Int
  cIssued : Int
  aFactor : ℚ
  bFactor : ℚ
  thresholdDelay : ℚ
deriving DecidableEq, Repr

/-- The configuration fields of `BWParameters` consumed by `InitBreakwater`. -/
structure BWParameters where
  BFactor : ℚ
  AFactor : ℚ
  SLO : Int
  InitialCredits : Int
deriving DecidableEq, Repr

/-- `InitBreakwater` from `breakwater.go`: empty map, zero clients and
issued credits, `cTotal = InitialCredits`,
`thresholdDelay = SLO * DELAY_THRESHOLD_PERCENT`. -/
def InitBreakwater (p : BWParameters) (now : Int) : Breakwater :=
  { clientMap := []
    lastUpdateTime := now
    numClients := 0
    cTotal := p.InitialCredits
    cIssued := 0
    aFactor := p.AFactor
    bFactor := p.BFactor
    thresholdDelay := (p.SLO : ℚ) * DELAY_THRESHOLD_PERCENT }

/-- `RegisterClient`: `LoadOrStore` on the client map.  A fresh client is
stored with `issued = 0`, the reported demand, and `lastUpdated` one second
(1 000 000 µs) in the past; `numClients` is incremented only on a fresh
store.  Returns the stored connection and the `loaded` flag. -/
def RegisterClient (b : Breakwater) (id : Nat) (demand : Int) (now : Int) :
    Connection × Bool × Breakwater :=
  match lookupConn b.clientMap id with
  | some stored => (stored, true, b)
  | none =>
    let c : Connection := { issued := 0, demand := demand, id := id,
                            lastUpdated := now - 1000000 }
    (c, false,
      { b with clientMap := storeConn b.clientMap id c,
               numClients := b.numClients + 1 })

/-! ## Delay-signal adapter (`getDelay`, `maximumQueuingDelayus`) -/

/-- A `runtime/metrics.Float64Histogram` snapshot.  `counts[i]` is the
cumulative weight of the bucket range `[buckets[i], buckets[i+1])` in
seconds, so a well-formed snapshot has
`buckets.length = counts.length + 1`: `buckets[i]` is bucket `i`'s lower
boundary and `buckets[i+1]` its upper boundary. -/
structure Float64Histogram where
  counts : List Int
  buckets : List ℚ
deriving DecidableEq, Repr

/-- The lower boundary of bucket `i`: `Buckets[i]`. -/
def bucketLowerBound (h : Float64Histogram) (i : Nat) : ℚ :=
  h.buckets.getD i 0

/-- The upper boundary of bucket `i`: `Buckets[i+1]`. -/
def bucketUpperBound (h : Float64Histogram) (i : Nat) : ℚ :=
  h.buckets.getD (i + 1) 0

/-- Descending scan of `maximumQueuingDelayus`: try indices
`n-1, n-2, …, 0` and stop at the first index whose count grew. -/
def mqdAux (earlier later : Float64Histogram) : Nat → ℚ
  | 0 => 0
  | n + 1 =>
    if earlier.counts.getD n 0 < later.counts.getD n 0 then
      later.buckets.getD n 0 * 1000000
    else
      mqdAux earlier later n

/-- `maximumQueuingDelayus`: walk buckets from the highest index of
`earlier.Counts` down; return `later.Buckets[i] * 1e6` — the *lower*
boundary of bucket `i` — for the first index where
`later.Counts[i] > earlier.Counts[i]`, and 0 if none grew. -/
def maximumQueuingDelayus (earlier later : Float64Histogram) : ℚ :=
  mqdAux earlier later earlier.counts.length

/-- `getDelay`: the state is the `prevHist` snapshot, the fresh histogram
reading (`readHistogram()`) is a parameter.  Returns the sampled delay and
the new `prevHist`. -/
def getDelay (prevHist : Option Float64Histogram) (fresh : Float64Histogram) :
    ℚ × Option Float64Histogram :=
  match prevHist with
  | none => (0, some fresh)
  | some prev => (maximumQueuingDelayus prev fresh, some fresh)

/-! ## RTT-cycle credit-pool update -/

/-- `getAdditiveFactor`: `max(roundedInt(aFactor * numClients), 1)`. -/
def getAdditiveFactor (b : Breakwater) : Int :=
  max (roundedInt (b.aFactor * (b.numClients : ℚ))) 1

/-- `getMultiplicativeFactor`:
`math.Max(1 - bFactor*((delay - thresholdDelay)/thresholdDelay), 0.5)`. -/
def getMultiplicativeFactor (b : Breakwater) (delay : ℚ) : ℚ :=
  mathMax (1 - b.bFactor * ((delay - b.thresholdDelay) / b.thresholdDelay)) (1/2)

/-- `getUpdatedTotalCredits` with the sampled delay as a parameter (the
source obtains it from `b.getDelay()`); `rttUpdate` assigns this value to
`cTotal` once per RTT window. -/
def getUpdatedTotalCredits (b : Breakwater) (delay : ℚ) : Int :=
  if delay < b.thresholdDelay then
    b.cTotal + getAdditiveFactor b
  else
    max (roundedInt (getMultiplicativeFactor b delay * (b.cTotal : ℚ))) 1

/-! ## Per-request credit issuance -/

/-- `calculateCreditsToOvercommit`:
`roundedInt(math.Max(float64(cTotal-cIssued)/float64(numClients), 1))`.
When `numClients = 0` the `float64` division is by zero and the subsequent
`int64` conversion of the non-finite result is implementation-specific, so
no defined integer is returned (`none`). -/
def calculateCreditsToOvercommit (b : Breakwater) : Option Int :=
  if b.numClients = 0 then none
  else
    some (roundedInt
      (mathMax (((b.cTotal - b.cIssued : Int) : ℚ) / ((b.numClients : Int) : ℚ)) 1))

/-- `getLowerCreditsIssued`: `min(demand + cOvercommit, cPrevious - 1)`,
with a guard returning 1 when `demand + cOvercommit < 0`. -/
def getLowerCreditsIssued (cOvercommit demand cPrevious : Int) : Int :=
  if demand + cOvercommit < 0 then 1
  else min (demand + cOvercommit) (cPrevious - 1)

/-- `getHigherCreditsIssued`:
`min(demand + cOvercommit, cPrevious + (cTotal - cIssued))`,
with the same negativity guard. -/
def getHigherCreditsIssued (b : Breakwater) (cOvercommit demand cPrevious : Int) : Int :=
  if demand + cOvercommit < 0 then 1
  else min (demand + cOvercommit) (cPrevious + (b.cTotal - b.cIssued))

/-- `calculateCreditsToIssue`: overcommit, then the headroom branch when
`cIssued < cTotal` and the saturated branch otherwise, floored at 1. -/
def calculateCreditsToIssue (b : Breakwater) (demand cPrevious : Int) : Option Int :=
  match calculateCreditsToOvercommit b with
  | none => none
  | some cOverCommit =>
    let cNew :=
      if b.cIssued < b.cTotal then
        getHigherCreditsIssued b cOverCommit demand cPrevious
      else
        getLowerCreditsIssued cOverCommit demand cPrevious
    some (max cNew 1)

/-- `updateCreditsToIssue`: an unregistered id logs a warning and returns a
grant of 0 leaving the state unchanged.  Otherwise, if the connection was
already serviced after the last RTT update
(`lastUpdated.After(lastUpdateTime)`) the grant auto-decays to
`max(cPrev - 1, 1)`; else it is `calculateCreditsToIssue`.  The connection
is stored back with the new grant and `lastUpdated = now`, and the global
`cIssued` is adjusted by the difference. -/
def updateCreditsToIssue (b : Breakwater) (clientID : Nat) (demand : Int) (now : Int) :
    Option (Int × Breakwater) :=
  match lookupConn b.clientMap clientID with
  | none => some (0, b)
  | some c =>
    let connCPrevious := c.issued
    let cNewOpt : Option Int :=
      if b.lastUpdateTime < c.lastUpdated then
        some (max (connCPrevious - 1) 1)
      else
        calculateCreditsToIssue b demand connCPrevious
    match cNewOpt with
    | none => none
    | some cNew =>
      some (cNew,
        { b with
            clientMap := storeConn b.clientMap clientID
              { c with issued := cNew, lastUpdated := now },
            cIssued := b.cIssued + (cNew - connCPrevious) })

/-- Controller states reachable from `InitBreakwater` by the operations of
the credit state machine. -/
inductive Reachable : Breakwater → Prop
  | init (p : BWParameters) (now : Int) : Reachable (InitBreakwater p now)
  | register (b : Breakwater) (id : Nat) (demand now : Int) :
      Reachable b → Reachable (RegisterClient b id demand now).2.2
  | update (b b' : Breakwater) (id : Nat) (demand now cNew : Int) :
      Reachable b → updateCreditsToIssue b id demand now = some (cNew, b') →
      Reachable b'

/-! ## Server interceptor metadata validation -/

/-- Outcome of the metadata-validation prefix of `UnaryInterceptor`.
`panicked` models a Go runtime panic (index out of range when reading
`md[key][0]` on an absent key). -/
inductive MDOutcome where
  | panicked
  | errInvalidArgument
  | proceed (demand : Int) (clientId reqId : Nat)
deriving DecidableEq, Repr

/-- Incoming metadata: for each breakwater key the list of received values,
each represented by its parse result (`strconv.ParseInt` for `demand`,
`uuid.Parse` for `id` and `reqid`); `none` is a malformed value. -/
structure IncomingMD where
  demand : List (Option Int)
  id : List (Option Nat)
  reqid : List (Option Nat)
deriving DecidableEq, Repr

/-- The metadata-validation prefix of `UnaryInterceptor`
(`metadata.FromIncomingContext` through the `err1 != nil || …` check):
absent metadata returns `errMissingMetadata`; indexing `md[key][0]` on an
absent key panics; a present but unparsable first value returns
`errMissingMetadata`; otherwise the parsed triple flows on. -/
def unaryInterceptorMD (md : Option IncomingMD) : MDOutcome :=
  match md with
  | none => .errInvalidArgument
  | some m =>
    match m.demand.head? with
    | none => .panicked
    | some d? =>
      match m.id.head? with
      | none => .panicked
      | some i? =>
        match m.reqid.head? with
        | none => .panicked
        | some r? =>
          match d?, i?, r? with
          | some d, some i, some r => .proceed d i r
          | _, _, _ => .errInvalidArgument

/-! ## Client-side admitter (`client_interceptor.go`) -/

/-- Client-side admitter state: the length of the bounded `pendingOutgoing`
channel, the `outgoingCredits` balance, and whether the single-slot
`noCreditBlocker` channel currently holds its token. -/
structure ClientState where
  id : Nat
  pendingOutgoing : Nat
  outgoingCredits : Int
  noCreditBlocker : Bool
deriving DecidableEq, Repr

/-- Client-side errors surfaced by the interceptor; `transport` is an
error returned by the underlying `invoker`. -/
inductive ClientError where
  | resourceExhaustedQueueFull (clientId : Nat)
  | resourceExhaustedExpired (clientId : Nat)
  | transport (e : Nat)
deriving DecidableEq, Repr

/-- `queueRequest`: non-blocking send on `pendingOutgoing`; fails iff the
channel already holds `MAX_Q_LENGTH` elements. -/
def queueRequest (s : ClientState) : Bool × ClientState :=
  if s.pendingOutgoing < MAX_Q_LENGTH then
    (true, { s with pendingOutgoing := s.pendingOutgoing + 1 })
  else (false, s)

/-- `dequeueRequest`: non-blocking receive on `pendingOutgoing`. -/
def dequeueRequest (s : ClientState) : Bool × ClientState :=
  if 0 < s.pendingOutgoing then
    (true, { s with pendingOutgoing := s.pendingOutgoing - 1 })
  else (false, s)

/-- `unblockNoCreditBlock`: non-blocking send on the single-slot
`noCreditBlocker`; a no-op when the slot is already full. -/
def unblockNoCreditBlock (s : ClientState) : ClientState :=
  { s with noCreditBlocker := true }

/-- `getDemand`: the current length of `pendingOutgoing`. -/
def getDemand (s : ClientState) : Nat := s.pendingOutgoing

/-- The admission prefix of `UnaryInterceptorClient`: `queueRequest`, and
on failure an immediate `ResourceExhausted` return naming the client, with
the state untouched. -/
def clientEnqueue (s : ClientState) : Except ClientError Unit × ClientState :=
  match queueRequest s with
  | (true, s1) => (Except.ok (), s1)
  | (false, s1) => (Except.error (ClientError.resourceExhaustedQueueFull s.id), s1)

/-- The dispatch suffix of `UnaryInterceptorClient`, entered after the
credit gate has been passed (`outgoingCredits` already decremented):
dequeue, invoke the transport — its outcome is the parameter, `some v`
being a response whose `credits` header parses to `v` and `none` a
response without the header — and on success refresh `outgoingCredits`
and re-post the gate.  A transport error is returned as-is with no
credit or gate update. -/
def clientAfterGate (invokerResult : Except ClientError (Option Int))
    (s : ClientState) : Except ClientError Unit × ClientState :=
  let s1 := (dequeueRequest s).2
  match invokerResult with
  | Except.error e => (Except.error e, s1)
  | Except.ok header =>
    match header with
    | some cXNew =>
      (Except.ok (), unblockNoCreditBlock { s1 with outgoingCredits := max cXNew 1 })
    | none =>
      (Except.ok (),
        unblockNoCreditBlock { s1 with outgoingCredits := max s1.outgoingCredits 1 })

/-! ## Concrete states used by counterexamples and witnesses -/

/-- A controller with no registered clients (`numClients = 0`). -/
def c6state : Breakwater :=
  { clientMap := [], lastUpdateTime := 0, numClients := 0, cTotal := 1000,
    cIssued := 0, aFactor := 0, bFactor := 0, thresholdDelay := 64 }

/-- A controller with 2 clients, `cTotal = 10`, `cIssued = 3`. -/
def c6w : Breakwater :=
  { clientMap := [], lastUpdateTime := 0, numClients := 2, cTotal := 10,
    cIssued := 3, aFactor := 0, bFactor := 0, thresholdDelay := 64 }

/-- A saturated controller: one client, `cTotal = 1`, `cIssued = 2`. -/
def c9b : Breakwater :=
  { clientMap := [], lastUpdateTime := 0, numClients := 1, cTotal := 1,
    cIssued := 2, aFactor := 0, bFactor := 0, thresholdDelay := 64 }

/-- The controller obtained by registering client 5 (demand 3) into a
freshly initialised instance. -/
def c2state : Breakwater :=
  (RegisterClient (InitBreakwater ⟨0, 0, 160, 1000⟩ 0) 5 3 0).2.2

/-- A controller whose single client (id 7) holds 2 issued credits and was
last serviced (`lastUpdated = 5`) after the last RTT update (at 0). -/
def c2wState : Breakwater :=
  { clientMap := [(7, { issued := 2, demand := 0, id := 7, lastUpdated := 5 })],
    lastUpdateTime := 0, numClients := 1, cTotal := 1, cIssued := 2,
    aFactor := 0, bFactor := 0, thresholdDelay := 64 }

/-- The controller obtained by registering client 7 (demand 0) into a
freshly initialised instance with `InitialCredits = 1`. -/
def c4s1 : Breakwater :=
  (RegisterClient (InitBreakwater ⟨0, 0, 160, 1⟩ 0) 7 0 0).2.2

/-- A controller whose single client (id 7) holds 3 issued credits and was
last serviced (`lastUpdated = 5`) after the last RTT update (at 0). -/
def c4w : Breakwater :=
  { clientMap := [(7, { issued := 3, demand := 0, id := 7, lastUpdated := 5 })],
    lastUpdateTime := 0, numClients := 1, cTotal := 10, cIssued := 3,
    aFactor := 0, bFactor := 0, thresholdDelay := 64 }

/-- A freshly initialised controller (no client registered). -/
def c7state : Breakwater := InitBreakwater ⟨0, 0, 160, 1000⟩ 0

/-- A well-formed histogram snapshot (3 boundaries for 2 buckets) with
cumulative counts `[5, 2]`; bucket 0 covers `[1/10, 2/10)`. -/
def prevC5 : Float64Histogram :=
  { counts := [5, 2], buckets := [1/10, 2/10, 3/10] }

/-- A later snapshot of `prevC5` whose bucket 0 gained one count. -/
def freshC5 : Float64Histogram :=
  { counts := [6, 2], buckets := [1/10, 2/10, 3/10] }

/-- An admitter whose outgoing queue is at capacity (50 entries). -/
def c8full : ClientState :=
  { id := 3, pendingOutgoing := 50, outgoingCredits := 7, noCreditBlocker := true }

/-! ## Bridges between the Go helpers and the ambient order operations -/

theorem max_eq_max (a b : Int) : max a b = Max.max a b := by
  unfold max
  split
  · exact (max_eq_left (le_of_lt ‹b < a›)).symm
  · exact (max_eq_right (not_lt.mp ‹¬ b < a›)).symm

theorem min_eq_min (a b : Int) : min a b = Min.min a b := by
  unfold min
  split
  · exact (min_eq_left (le_of_lt ‹a < b›)).symm
  · exact (min_eq_right (not_lt.mp ‹¬ a < b›)).symm

theorem mathMax_eq (a b : ℚ) : mathMax a b = Max.max a b := by
  unfold mathMax
  split
  · exact (max_eq_right (le_of_lt ‹a < b›)).symm
  · exact (max_eq_left (not_lt.mp ‹¬ a < b›)).symm

theorem one_le_max_one (a : Int) : 1 ≤ max a 1 := by
  unfold max
  split <;> omega

theorem max_le_of_le {a b c : Int} (h1 : a ≤ c) (h2 : b ≤ c) : max a b ≤ c := by
  unfold max
  split <;> omega

theorem one_le_roundedInt {x : ℚ} (h : 1 ≤ x) : 1 ≤ roundedInt x := by
  unfold roundedInt
  rw [if_pos (le_trans zero_le_one h)]
  exact Int.le_floor.mpr (by push_cast; linarith)

theorem roundedInt_le_one {x : ℚ} (h : x ≤ 1) : roundedInt x ≤ 1 := by
  unfold roundedInt
  split
  · have h2 : ⌊x + 1/2⌋ < 2 := Int.floor_lt.mpr (by push_cast; linarith)
    omega
  · have h0 : (0:ℚ) ≤ -x + 1/2 := by
      have := not_le.mp ‹¬ 0 ≤ x›
      linarith
    have h1 : 0 ≤ ⌊-x + 1/2⌋ := Int.floor_nonneg.mpr h0
    omega

theorem roundedInt_one : roundedInt 1 = 1 := by
  unfold roundedInt
  rw [if_pos (by norm_num)]
  norm_num

theorem roundedInt_mathMax_one (q : ℚ) :
    roundedInt (mathMax q 1) = max (roundedInt q) 1 := by
  rw [mathMax_eq, max_eq_max]
  rcases le_total q 1 with hle | hge
  · rw [max_eq_right hle, roundedInt_one, max_eq_right (roundedInt_le_one hle)]
  · rw [max_eq_left hge, max_eq_left (one_le_roundedInt hge)]

theorem lookup_store_self :
    ∀ (m : List (Nat × Connection)) (i : Nat) (c : Connection),
      lookupConn (storeConn m i c) i = some c
  | [], i, c => by simp [storeConn, lookupConn]
  | (k, c0) :: rest, i, c => by
    by_cases hk : k = i
    · simp [storeConn, hk, lookupConn]
    · simp [storeConn, hk, lookupConn, lookup_store_self rest i c]

theorem lookup_store_ne :
    ∀ (m : List (Nat × Connection)) (i j : Nat) (c : Connection), j ≠ i →
      lookupConn (storeConn m i c) j = lookupConn m j
  | [], i, j, c, hne => by
    have hij : ¬ i = j := fun h => hne h.symm
    simp [storeConn, lookupConn, hij]
  | (k, c0) :: rest, i, j, c, hne => by
    have hij : ¬ i = j := fun h => hne h.symm
    by_cases hk : k = i
    · subst hk
      simp [storeConn, lookupConn, hij]
    · simp only [storeConn, if_neg hk]
      by_cases hj : k = j
      · simp [lookupConn, hj]
      · simp [lookupConn, hj, lookup_store_ne rest i j c hne]

theorem calcIssue_ge_one {b : Breakwater} {demand cPrevious v : Int}
    (h : calculateCreditsToIssue b demand cPrevious = some v) : 1 ≤ v := by
  unfold calculateCreditsToIssue at h
  rcases hoc : calculateCreditsToOvercommit b with _ | cOC <;> rw [hoc] at h
  · exact absurd h (by simp)
  · simp only [Option.some.injEq] at h
    subst h
    exact one_le_max_one _

theorem updateCredits_some_shape (b : Breakwater) (id : Nat)
    (demand now cNew : Int) (b' : Breakwater) (c : Connection)
    (hreg : lookupConn b.clientMap id = some c)
    (h : updateCreditsToIssue b id demand now = some (cNew, b')) :
    1 ≤ cNew ∧
      b'.clientMap =
        storeConn b.clientMap id { c with issued := cNew, lastUpdated := now } := by
  unfold updateCreditsToIssue at h
  rw [hreg] at h
  dsimp only at h
  by_cases hwin : b.lastUpdateTime < c.lastUpdated
  · rw [if_pos hwin] at h
    simp only [Option.some.injEq, Prod.mk.injEq] at h
    obtain ⟨hcn, hb'⟩ := h
    subst hb'
    exact ⟨hcn ▸ one_le_max_one _, by rw [hcn]⟩
  · rw [if_neg hwin] at h
    rcases hci : calculateCreditsToIssue b demand c.issued with _ | v <;>
      rw [hci] at h
    · exact absurd h (by simp)
    · simp only [Option.some.injEq, Prod.mk.injEq] at h
      obtain ⟨hcn, hb'⟩ := h
      subst hb'
      exact ⟨hcn ▸ calcIssue_ge_one hci, by rw [hcn]⟩

theorem mqdAux_zero (earlier later : Float64Histogram) :
    ∀ n, (∀ i, i < n → later.counts.getD i 0 ≤ earlier.counts.getD i 0) →
      mqdAux earlier later n = 0
  | 0, _ => rfl
  | n + 1, h => by
    unfold mqdAux
    rw [if_neg (not_lt.mpr (h n (Nat.lt_succ_self n)))]
    exact mqdAux_zero earlier later n (fun i hi => h i (Nat.lt_succ_of_lt hi))

theorem mqdAux_bucket (earlier later : Float64Histogram) :
    ∀ n j, j < n → earlier.counts.getD j 0 < later.counts.getD j 0 →
      (∀ i, j < i → i < n → later.counts.getD i 0 ≤ earlier.counts.getD i 0) →
      mqdAux earlier later n = later.buckets.getD j 0 * 1000000
  | 0, j, hj, _, _ => absurd hj (Nat.not_lt_zero j)
  | n + 1, j, hj, hinc, habove => by
    unfold mqdAux
    by_cases hjn : j = n
    · subst hjn
      rw [if_pos hinc]
    · have hj' : j < n := by omega
      rw [if_neg (not_lt.mpr (habove n hj' (Nat.lt_succ_self n)))]
      exact mqdAux_bucket earlier later n j hj' hinc
        (fun i h1 h2 => habove i h1 (Nat.lt_succ_of_lt h2))

/-! ## Claim theorems -/

/-- C1: for every RTT-cycle credit-pool update with sampled queueing delay
`d`: if `d < thresholdDelay` the new `cTotal` is the old `cTotal` plus
`max(round(aFactor × numClients), 1)`; otherwise it is
`max(round(cTotal × f), 1)` with
`f = max(0.5, 1 − bFactor × (d − thresholdDelay)/thresholdDelay)`. -/
theorem rtt_pool_update_spec (b : Breakwater) (d : ℚ) :
    getUpdatedTotalCredits b d =
      if d < b.thresholdDelay then
        b.cTotal + Max.max (roundedInt (b.aFactor * (b.numClients : ℚ))) 1
      else
        Max.max (roundedInt ((b.cTotal : ℚ) *
          Max.max (1/2)
            (1 - b.bFactor * ((d - b.thresholdDelay) / b.thresholdDelay)))) 1 := by
  unfold getUpdatedTotalCredits getAdditiveFactor getMultiplicativeFactor
  split
  · rw [max_eq_max]
  · rw [max_eq_max, mathMax_eq, mul_comm,
      max_comm (1 - b.bFactor * ((d - b.thresholdDelay) / b.thresholdDelay)) (1/2)]

/-- C6 (counterexample): with `numClients = 0` the overcommit computation
divides by zero in `float64`; the `int64` conversion of the non-finite
result is implementation-specific, so no defined integer — in particular
not 1 — is returned, refuting "when numClients = 0 it returns exactly 1". -/
theorem overcommit_numclients_zero_cex :
    c6state.numClients = 0 ∧ calculateCreditsToOvercommit c6state = none :=
  ⟨rfl, rfl⟩

/-- C6 (amended): whenever `numClients ≠ 0` the overcommit computation has
the defined value `round(max((cTotal − cIssued)/numClients, 1))`, which
equals the claimed `max(round((cTotal − cIssued)/numClients), 1)` and is
at least 1. -/
theorem overcommit_spec (b : Breakwater) (r : Int) (hn : b.numClients ≠ 0)
    (h : calculateCreditsToOvercommit b = some r) :
    1 ≤ r ∧
      r = max (roundedInt (((b.cTotal - b.cIssued : Int) : ℚ) /
        ((b.numClients : Int) : ℚ))) 1 := by
  unfold calculateCreditsToOvercommit at h
  rw [if_neg hn] at h
  simp only [Option.some.injEq] at h
  subst h
  rw [roundedInt_mathMax_one]
  exact ⟨one_le_max_one _, rfl⟩

/-- C6 witness: `overcommit_spec` applied to a controller with 2 clients,
`cTotal = 10`, `cIssued = 3`: the overcommit is defined and equals
`max(round(7/2), 1) = 4 ≥ 1`. -/
theorem overcommit_spec_witness :
    1 ≤ (4 : Int) ∧
      (4 : Int) = max (roundedInt (((c6w.cTotal - c6w.cIssued : Int) : ℚ) /
        ((c6w.numClients : Int) : ℚ))) 1 :=
  overcommit_spec c6w 4 (by norm_num [c6w])
    (by norm_num [c6w, calculateCreditsToOvercommit, mathMax, roundedInt])

/-- C9: in the saturated regime (`cIssued ≥ cTotal`) with previous
per-client credit `cPrev ≥ 1`, any defined grant satisfies
`cNew ≤ cPrev`: the saturated branch never issues net new credits. -/
theorem saturated_non_increase (b : Breakwater) (demand cPrev cNew : Int)
    (hsat : b.cTotal ≤ b.cIssued) (hprev : 1 ≤ cPrev)
    (h : calculateCreditsToIssue b demand cPrev = some cNew) :
    cNew ≤ cPrev := by
  unfold calculateCreditsToIssue at h
  rcases hoc : calculateCreditsToOvercommit b with _ | cOC <;> rw [hoc] at h
  · exact absurd h (by simp)
  · dsimp only at h
    rw [if_neg (not_lt.mpr hsat)] at h
    simp only [Option.some.injEq] at h
    subst h
    unfold getLowerCreditsIssued
    split
    · exact max_le_of_le hprev hprev
    · refine max_le_of_le ?_ hprev
      have hmin : min (demand + cOC) (cPrev - 1) ≤ cPrev - 1 := by
        unfold min
        split <;> omega
      omega

/-- C9 witness: `saturated_non_increase` on a saturated controller
(`cTotal = 1`, `cIssued = 2`, one client) with `cPrev = 1`, `demand = 0`:
the grant is 1 ≤ 1. -/
theorem saturated_non_increase_witness : (1 : Int) ≤ 1 :=
  saturated_non_increase c9b 0 1 1 (by norm_num [c9b]) (by norm_num)
    (by norm_num [c9b, calculateCreditsToIssue, calculateCreditsToOvercommit,
        getLowerCreditsIssued, mathMax, roundedInt, min, max])

/-- C2 (counterexample): the reachable state obtained by `RegisterClient`
inserting a fresh Connection has that connection at `issued = 0`, so the
invariant `issued ≥ 1` does not hold immediately after the insertion. -/
theorem register_issued_zero_cex :
    Reachable c2state ∧
      (lookupConn c2state.clientMap 5).map Connection.issued = some 0 :=
  ⟨Reachable.register _ 5 3 0 (Reachable.init ⟨0, 0, 160, 1000⟩ 0), by decide⟩

/-- C2 (amended): every call to `updateCreditsToIssue` for a registered
client leaves that client with `issued ≥ 1`, and preserves `issued ≥ 1`
for every other connection; the invariant therefore holds for all
connections that have received at least one grant, but not for a freshly
registered connection (which starts at `issued = 0`). -/
theorem updateCredits_issued_ge_one (b : Breakwater) (id : Nat)
    (demand now cNew : Int) (b' : Breakwater) (c : Connection)
    (hreg : lookupConn b.clientMap id = some c)
    (h : updateCreditsToIssue b id demand now = some (cNew, b'))
    (hinv : ∀ k ck, lookupConn b.clientMap k = some ck → k ≠ id → 1 ≤ ck.issued) :
    ∀ k ck, lookupConn b'.clientMap k = some ck → 1 ≤ ck.issued := by
  obtain ⟨h1, hmap⟩ := updateCredits_some_shape b id demand now cNew b' c hreg h
  intro k ck hk
  rw [hmap] at hk
  by_cases hki : k = id
  · subst hki
    rw [lookup_store_self] at hk
    cases hk
    exact h1
  · rw [lookup_store_ne _ _ _ _ hki] at hk
    exact hinv k ck hk hki

/-- C2 witness: `updateCredits_issued_ge_one` on a controller whose single
client holds 2 credits; after the call the stored connection holds 1 ≥ 1
credit. -/
theorem updateCredits_issued_ge_one_witness :
    1 ≤ ({ issued := 1, demand := 0, id := 7, lastUpdated := 9 } : Connection).issued :=
  updateCredits_issued_ge_one c2wState 7 0 9 1
    { clientMap := [(7, { issued := 1, demand := 0, id := 7, lastUpdated := 9 })],
      lastUpdateTime := 0, numClients := 1, cTotal := 1, cIssued := 1,
      aFactor := 0, bFactor := 0, thresholdDelay := 64 }
    { issued := 2, demand := 0, id := 7, lastUpdated := 5 }
    (by decide) (by decide)
    (by
      intro k ck hk hne
      have h7 : ¬ (7 = k) := fun hh => hne hh.symm
      simp [c2wState, lookupConn, h7] at hk)
    7 { issued := 1, demand := 0, id := 7, lastUpdated := 9 } (by decide)

/-- C3 (code bug): metadata that is absent, and metadata whose first
`demand` value is malformed, are rejected with the InvalidArgument
`missing metadata` status — but metadata that is present while missing the
`demand` key makes the interceptor index `md["demand"][0]` on an empty
slice, which panics instead of returning InvalidArgument. -/
theorem interceptor_missing_key_panics :
    unaryInterceptorMD none = MDOutcome.errInvalidArgument ∧
      unaryInterceptorMD
        (some { demand := [none], id := [some 1], reqid := [some 2] }) =
        MDOutcome.errInvalidArgument ∧
      unaryInterceptorMD
        (some { demand := [], id := [some 1], reqid := [some 2] }) =
        MDOutcome.panicked :=
  ⟨rfl, rfl, rfl⟩

/-- C4 (counterexample): starting from a fresh controller with
`InitialCredits = 1`, registering client 7 and issuing once yields
`issued = 1`; a second issuance in the same RTT window returns a grant of
1 again — the issued count is reduced by 0, not by exactly 1. -/
theorem autodecay_not_exact_one_cex :
    (updateCreditsToIssue c4s1 7 0 5).map Prod.fst = some 1 ∧
      ((updateCreditsToIssue c4s1 7 0 5).bind fun r =>
        (updateCreditsToIssue r.2 7 0 6).map Prod.fst) = some 1 := by
  norm_num [c4s1, InitBreakwater, RegisterClient, updateCreditsToIssue, lookupConn,
    storeConn, calculateCreditsToIssue, calculateCreditsToOvercommit,
    getHigherCreditsIssued, getLowerCreditsIssued, mathMax, roundedInt, min, max,
    DELAY_THRESHOLD_PERCENT]

/-- C4 (amended): a second issuance for a client within the same RTT
window (`lastUpdated > lastUpdateTime`) sets `issued` to
`max(cPrev − 1, 1)` regardless of demand: a reduction by exactly 1 when
`cPrev ≥ 2`, and no change (clamped at 1) when `cPrev = 1`. -/
theorem autodecay_spec (b : Breakwater) (id : Nat) (demand now : Int)
    (c : Connection)
    (hreg : lookupConn b.clientMap id = some c)
    (hwin : b.lastUpdateTime < c.lastUpdated) :
    (updateCreditsToIssue b id demand now).map Prod.fst =
      some (max (c.issued - 1) 1) ∧
    ((updateCreditsToIssue b id demand now).bind fun r =>
      (lookupConn r.2.clientMap id).map Connection.issued) =
      some (max (c.issued - 1) 1) ∧
    (2 ≤ c.issued →
      (updateCreditsToIssue b id demand now).map Prod.fst = some (c.issued - 1)) ∧
    (c.issued ≤ 1 →
      (updateCreditsToIssue b id demand now).map Prod.fst = some 1) := by
  have hval : updateCreditsToIssue b id demand now =
      some (max (c.issued - 1) 1,
        { b with
            clientMap := storeConn b.clientMap id
              { c with issued := max (c.issued - 1) 1, lastUpdated := now },
            cIssued := b.cIssued + (max (c.issued - 1) 1 - c.issued) }) := by
    unfold updateCreditsToIssue
    rw [hreg]
    dsimp only
    rw [if_pos hwin]
  refine ⟨by rw [hval]; rfl, ?_, ?_, ?_⟩
  · rw [hval]
    simp only [Option.bind]
    rw [lookup_store_self]
    rfl
  · intro h2
    rw [hval]
    simp only [Option.map]
    congr 1
    unfold max
    split <;> omega
  · intro h1
    rw [hval]
    simp only [Option.map]
    congr 1
    unfold max
    split <;> omega

/-- C4 witness: `autodecay_spec` on a client holding 3 credits inside the
current RTT window: the second call grants `max(3−1,1)`, which is exactly
`3 − 1 = 2`. -/
theorem autodecay_spec_witness :
    (updateCreditsToIssue c4w 7 11 9).map Prod.fst = some (max (3 - 1) 1) ∧
    ((updateCreditsToIssue c4w 7 11 9).bind fun r =>
      (lookupConn r.2.clientMap 7).map Connection.issued) = some (max (3 - 1) 1) ∧
    (2 ≤ (3 : Int) →
      (updateCreditsToIssue c4w 7 11 9).map Prod.fst = some (3 - 1)) ∧
    ((3 : Int) ≤ 1 →
      (updateCreditsToIssue c4w 7 11 9).map Prod.fst = some 1) :=
  autodecay_spec c4w 7 11 9 { issued := 3, demand := 0, id := 7, lastUpdated := 5 }
    (by decide) (by decide)

/-- C5 (counterexample): on two well-formed snapshots
(`Buckets.length = Counts.length + 1`) where bucket 0 is the only bucket
whose count grew, the adapter returns bucket 0's *lower* boundary
`Buckets[0] × 1e6 = 100000`, not the claimed upper boundary
`Buckets[1] × 1e6 = 200000`. -/
theorem delay_upper_bound_cex :
    freshC5.buckets.length = freshC5.counts.length + 1 ∧
    prevC5.counts.getD 0 0 < freshC5.counts.getD 0 0 ∧
    freshC5.counts.getD 1 0 ≤ prevC5.counts.getD 1 0 ∧
    (getDelay (some prevC5) freshC5).1 = bucketLowerBound freshC5 0 * 1000000 ∧
    (getDelay (some prevC5) freshC5).1 ≠ bucketUpperBound freshC5 0 * 1000000 := by
  refine ⟨by decide, by decide, by decide, rfl, ?_⟩
  show bucketLowerBound freshC5 0 * 1000000 ≠ bucketUpperBound freshC5 0 * 1000000
  norm_num [bucketLowerBound, bucketUpperBound, freshC5, List.getD]

/-- C5 (amended): on the first sample (`prevHist` unset) the delay adapter
returns 0 and stores the fresh histogram; on a later sample it stores the
fresh histogram and returns the *lower* boundary `Buckets[j] × 1e6` — one
boundary below the claimed upper bound — for the highest bucket index `j`
whose count grew since the previous snapshot, or 0 if no count grew. -/
theorem delay_adapter_lower_bound_spec (prev fresh : Float64Histogram)
    (_hlen : fresh.counts.length = prev.counts.length)
    (_hbuck : fresh.buckets.length = fresh.counts.length + 1) :
    getDelay none fresh = (0, some fresh) ∧
    (getDelay (some prev) fresh).2 = some fresh ∧
    ((∀ i, i < prev.counts.length →
        fresh.counts.getD i 0 ≤ prev.counts.getD i 0) →
      (getDelay (some prev) fresh).1 = 0) ∧
    (∀ j, j < prev.counts.length →
      prev.counts.getD j 0 < fresh.counts.getD j 0 →
      (∀ i, j < i → i < prev.counts.length →
        fresh.counts.getD i 0 ≤ prev.counts.getD i 0) →
      (getDelay (some prev) fresh).1 = bucketLowerBound fresh j * 1000000) := by
  refine ⟨rfl, rfl, ?_, ?_⟩
  · intro h
    exact mqdAux_zero prev fresh prev.counts.length h
  · intro j hj hinc habove
    exact mqdAux_bucket prev fresh prev.counts.length j hj hinc habove

/-- C5 witness: `delay_adapter_lower_bound_spec` on two concrete
well-formed snapshots where only bucket 0 gained a count: the sampled
delay is bucket 0's lower boundary `Buckets[0] × 1e6`. -/
theorem delay_adapter_lower_bound_spec_witness :
    (getDelay (some prevC5) freshC5).1 = bucketLowerBound freshC5 0 * 1000000 :=
  (delay_adapter_lower_bound_spec prevC5 freshC5 (by decide) (by decide)).2.2.2 0
    (by decide) (by decide)
    (by
      intro i h1 h2
      have hi : i = 1 := by
        simp [prevC5] at h2
        omega
      subst hi
      decide)

/-- C7 (counterexample): invoking credit issuance for an unregistered id
returns a grant of 0 — not the conservative grant of 1 the claim states —
while processing continues with the state unchanged. -/
theorem unregistered_grant_zero_cex :
    (updateCreditsToIssue c7state 9 4 10).map Prod.fst ≠ some 1 ∧
      updateCreditsToIssue c7state 9 4 10 = some (0, c7state) :=
  ⟨by decide, rfl⟩

/-- C7 (amended): issuance for an id absent from `clientMap` logs the
anomaly and returns a grant of 0 with the controller state unchanged —
no crash and no state corruption, but the conservative grant is 0, not 1. -/
theorem unregistered_grant_spec (b : Breakwater) (id : Nat) (demand now : Int)
    (h : lookupConn b.clientMap id = none) :
    updateCreditsToIssue b id demand now = some (0, b) := by
  unfold updateCreditsToIssue
  rw [h]

/-- C7 witness: `unregistered_grant_spec` on a fresh controller and
client id 9. -/
theorem unregistered_grant_spec_witness :
    updateCreditsToIssue c7state 9 4 10 = some (0, c7state) :=
  unregistered_grant_spec c7state 9 4 10 (by decide)

/-- C8: when `pendingOutgoing` already holds `MAX_Q_LENGTH` (50) entries,
the client interceptor's enqueue step fails immediately with
`ResourceExhausted` identifying the client, leaving the whole admitter
state — queue and credits — unchanged. -/
theorem queue_full_reject (s : ClientState) (h : s.pendingOutgoing = MAX_Q_LENGTH) :
    clientEnqueue s =
      (Except.error (ClientError.resourceExhaustedQueueFull s.id), s) := by
  simp [clientEnqueue, queueRequest, h]

/-- C8 witness: `queue_full_reject` on an admitter with 50 queued
requests. -/
theorem queue_full_reject_witness :
    clientEnqueue c8full =
      (Except.error (ClientError.resourceExhaustedQueueFull c8full.id), c8full) :=
  queue_full_reject c8full (by decide)

/-- C10: when the transport invoker fails after the credit gate was
passed, the client interceptor returns that same error, with
`outgoingCredits` unchanged from its post-gate (already decremented) value
and without re-posting the `noCreditBlocker` gate. -/
theorem invoker_error_frame (s : ClientState) (e : ClientError) :
    (clientAfterGate (Except.error e) s).1 = Except.error e ∧
    ((clientAfterGate (Except.error e) s).2).outgoingCredits = s.outgoingCredits ∧
    ((clientAfterGate (Except.error e) s).2).noCreditBlocker = s.noCreditBlocker := by
  by_cases h : 0 < s.pendingOutgoing <;>
    simp [clientAfterGate, dequeueRequest, h]

end BreakwaterGrpc
